import Mathlib

/-!
Shallow embedding of the strict watchdog device of this repository
(src/hw/watchdog/wdt_strict.c), together with theorems about its
greet/feed/expire protocol.

Conventions of the embedding:
* `uint32_t` / `uint64_t` values are `Nat` together with explicit
  reductions modulo `U32 = 2 ^ 32` / `U64 = 2 ^ 64` wherever the C
  arithmetic wraps.
* The virtual clock (`qemu_clock_get_ns`) is passed to each operation
  as an explicit `now : Nat` argument.
* A C `assert` that fails aborts the process; a failing assertion is
  modelled by the operation returning `none`.
* The armed deadline of the `QEMUTimer` (set by `timer_mod`) is the
  field `timer_deadline`.
* The call `watchdog_perform_action()` (the external reset action) is
  modelled by a `Bool` component of the result: `true` exactly when the
  operation invoked the reset action.
-/

def U32 : Nat := 2 ^ 32

def U64 : Nat := 2 ^ 64

/-- Register map of the device (enum at the top of wdt_strict.c). -/
def WDT_STRICT_REG_GREET : Nat := 0x00

def WDT_STRICT_REG_FEED : Nat := 0x04

def WDT_STRICT_REG_DEADLINE : Nat := 0x08

def WDT_STRICT_REG_EARLY_OFFSET : Nat := 0x0C

def WDT_STRICT_MMIO_SIZE : Nat := 0x10

/-- The device state `WatchdogStrictState` (minus the QOM boilerplate):
configuration properties plus the mutable protocol state, together with
the armed deadline of the one QEMU timer. -/
structure WdtState where
  disable_auto : Bool
  feeding_period_ns : Nat
  early_feed_limit_ns : Nat
  was_greeted : Bool
  next_food_expected : Nat
  next_expiration_time : Nat
  timer_deadline : Nat
deriving Repr, DecidableEq

/-- Loop body of `integer_power_truncated`: the C loop runs `i` from 15
down to 0; here the fuel argument `n + 1` processes exponent bit `n`.
Every multiplication wraps modulo `2 ^ 32` as the `uint32_t` arithmetic
in the C code does. -/
def ipt_loop (base power : Nat) : Nat → Nat → Nat
  | out, 0 => out
  | out, n + 1 =>
      let o := out * out % U32
      let o2 := if power &&& (1 <<< n) ≠ 0 then o * base % U32 else o
      ipt_loop base power o2 n

/-- Function `integer_power_truncated` from wdt_strict.c: square-and-multiply
over the 16 exponent bits, accumulating in a wrapping 32-bit register. -/
def integer_power_truncated (base power : Nat) : Nat :=
  ipt_loop base power 1 16

/-- Function `wdt_strict_food_from_recipe` from wdt_strict.c: the challenge
transform.  Exponentiation of `(recipe >> 8) | 1` by `recipe & 0xFFFF`,
then the XOR-accumulation loop `result ^= ((recipe >> i) & 1) << (31 - i)`
for `i = 0 .. 31`. -/
def wdt_strict_food_from_recipe (recipe : Nat) : Nat :=
  let result := integer_power_truncated ((recipe >>> 8) ||| 1) (recipe &&& 0xFFFF)
  List.foldl (fun r i => r ^^^ (((recipe >>> i) &&& 1) <<< (31 - i))) result (List.range 32)

/-- Bitwise complement of the clock truncated to 32 bits, `~(uint32_t)now`. -/
def u32_complement (x : Nat) : Nat :=
  (x % U32) ^^^ (U32 - 1)

/-- Timer callback `wdt_strict_timer_expired`: assert `now >= next_expiration_time`,
advance the deadline by one period (wrapping `uint64_t` addition),
assert the new deadline is in the future, re-arm the timer, clear
`was_greeted`, and perform the reset action unless `disable_auto`. -/
def wdt_strict_timer_expired (s : WdtState) (now : Nat) : Option (WdtState × Bool) :=
  if s.next_expiration_time ≤ now then
    let d := (s.next_expiration_time + s.feeding_period_ns) % U64
    if now < d then
      some ({ s with next_expiration_time := d, timer_deadline := d, was_greeted := false },
            !s.disable_auto)
    else none
  else none

/-- Helper `wdt_strict_defer_next_reset`: assert `now <= next_expiration_time`;
if the deadline is within one period of `now`, push it out by exactly one
period and re-arm the timer, otherwise leave the state unchanged. -/
def wdt_strict_defer_next_reset (s : WdtState) (now : Nat) : Option WdtState :=
  if now ≤ s.next_expiration_time then
    if s.next_expiration_time ≤ (now + s.feeding_period_ns) % U64 then
      let d := (s.next_expiration_time + s.feeding_period_ns) % U64
      some { s with next_expiration_time := d, timer_deadline := d }
    else
      some s
  else none

/-- Violation handler `wdt_strict_immediate_reset` (the HandleViolation path): defer the
next scheduled reset, clear `was_greeted`, and unconditionally perform
the reset action (the `Bool` component is always `true`). -/
def wdt_strict_immediate_reset (s : WdtState) (now : Nat) : Option (WdtState × Bool) :=
  (wdt_strict_defer_next_reset s now).map fun s1 => ({ s1 with was_greeted := false }, true)

/-- Greet operation `wdt_strict_greet`: assert `next_expiration_time >= now`; on an early
or duplicate greet run the violation path and return 0; otherwise derive
the recipe from the complemented clock, record the expected food, set
`was_greeted`, and return the recipe. -/
def wdt_strict_greet (s : WdtState) (now : Nat) : Option (Nat × WdtState × Bool) :=
  if s.next_expiration_time < now then none
  else if (now + s.early_feed_limit_ns) % U64 < s.next_expiration_time ∨ s.was_greeted = true then
    (wdt_strict_immediate_reset s now).map fun p => (0, p.1, p.2)
  else
    let recipe := wdt_strict_food_from_recipe (u32_complement now)
    some (recipe,
          { s with was_greeted := true,
                   next_food_expected := wdt_strict_food_from_recipe recipe },
          false)

/-- Feed operation `wdt_strict_feed`: assert `next_expiration_time >= now`; an early
feed, a feed without greeting, or wrong food runs the violation path;
otherwise defer the deadline and clear `was_greeted`. -/
def wdt_strict_feed (s : WdtState) (now value : Nat) : Option (WdtState × Bool) :=
  if s.next_expiration_time < now then none
  else if (now + s.early_feed_limit_ns) % U64 < s.next_expiration_time
      ∨ s.was_greeted = false ∨ value ≠ s.next_food_expected then
    wdt_strict_immediate_reset s now
  else
    (wdt_strict_defer_next_reset s now).map fun s1 => ({ s1 with was_greeted := false }, false)

/-- Register read `wdt_strict_read`: `assert(size == 4)` (a non-4-byte access aborts,
modelled `none`), then dispatch on the register offset; the default case
is `assert(false)`. -/
def wdt_strict_read (s : WdtState) (now addr size : Nat) : Option (Nat × WdtState × Bool) :=
  if size ≠ 4 then none
  else if addr = WDT_STRICT_REG_GREET then
    wdt_strict_greet s now
  else if addr = WDT_STRICT_REG_FEED then
    (wdt_strict_immediate_reset s now).map fun p => (0, p.1, p.2)
  else if addr = WDT_STRICT_REG_DEADLINE then
    some (s.next_expiration_time % U32, s, false)
  else if addr = WDT_STRICT_REG_EARLY_OFFSET then
    some (s.early_feed_limit_ns % U32, s, false)
  else none

/-- Register write `wdt_strict_write`: `assert(size == 4)` (else abort, modelled
`none`); writes to the read-only registers are violations; a write to
FEED feeds the `uint32_t` truncation of the written value. -/
def wdt_strict_write (s : WdtState) (now addr value size : Nat) : Option (WdtState × Bool) :=
  if size ≠ 4 then none
  else if addr = WDT_STRICT_REG_GREET ∨ addr = WDT_STRICT_REG_DEADLINE
      ∨ addr = WDT_STRICT_REG_EARLY_OFFSET then
    wdt_strict_immediate_reset s now
  else if addr = WDT_STRICT_REG_FEED then
    wdt_strict_feed s now (value % U32)
  else none

/-- The `.impl` constraints of the `MemoryRegionOps` of the device. -/
structure MemRegionImpl where
  min_access_size : Nat
  max_access_size : Nat
  unaligned : Bool
deriving Repr, DecidableEq

/-- The `wdt_strict_ops.impl` values: the memory core only ever delivers 4-byte
accesses to the callbacks. -/
def wdt_strict_ops_impl : MemRegionImpl :=
  { min_access_size := 4, max_access_size := 4, unaligned := false }

/-- Realize hook `wdt_strict_realize`: device construction at virtual time `now`;
the deadline (and the armed timer) start one period after `now`,
`was_greeted` starts false.  QOM instances are zero-initialized, so
`next_food_expected` starts 0. -/
def wdt_strict_realize (dis : Bool) (period early now : Nat) : WdtState :=
  let d := (now + period) % U64
  { disable_auto := dis,
    feeding_period_ns := period,
    early_feed_limit_ns := early,
    was_greeted := false,
    next_food_expected := 0,
    next_expiration_time := d,
    timer_deadline := d }

/-- One externally triggerable operation of the controller. -/
inductive WdtOp where
  | greet (now : Nat)
  | feed (now value : Nat)
  | timerExpired (now : Nat)
  | readReg (now addr size : Nat)
  | writeReg (now addr value size : Nat)
deriving Repr, DecidableEq

/-- The state transition of one operation (outputs and the reset flag
dropped); `none` when the operation hits a fatal assertion. -/
def wdt_strict_step (s : WdtState) : WdtOp → Option WdtState
  | .greet now => (wdt_strict_greet s now).map fun p => p.2.1
  | .feed now v => (wdt_strict_feed s now v).map Prod.fst
  | .timerExpired now => (wdt_strict_timer_expired s now).map Prod.fst
  | .readReg now addr size => (wdt_strict_read s now addr size).map fun p => p.2.1
  | .writeReg now addr v size => (wdt_strict_write s now addr v size).map Prod.fst

/-- Run a list of operations from a state. -/
def wdt_strict_run (s : WdtState) : List WdtOp → Option WdtState
  | [] => some s
  | op :: ops => (wdt_strict_step s op).bind fun s1 => wdt_strict_run s1 ops

/-- The XOR mask accumulated by the bit-reversal loop of
`wdt_strict_food_from_recipe`, run from 0. -/
def bit_reversal_32 (x : Nat) : Nat :=
  List.foldl (fun r i => r ^^^ (((x >>> i) &&& 1) <<< (31 - i))) 0 (List.range 32)

/-- The device of the spec's concrete scenario: `feeding_period_ns` and
`early_feed_limit_ns` one second, realized at virtual time 0, so the
first deadline is 1_000_000_000. -/
def wdt_demo_init : WdtState := wdt_strict_realize false 1000000000 1000000000 0

/-- The recipe a greet at t = 200_000_000 returns. -/
def wdt_demo_recipe : Nat := wdt_strict_food_from_recipe (u32_complement 200000000)

/-- The food expected after that greet: `transform(recipe)`. -/
def wdt_demo_food : Nat := wdt_strict_food_from_recipe wdt_demo_recipe

/-- Scenario state after the successful greet at t = 200_000_000. -/
def wdt_demo_greeted : WdtState :=
  { wdt_demo_init with was_greeted := true, next_food_expected := wdt_demo_food }

/-- Scenario state after the accepted feed at t = 200_000_001: the
deadline was deferred to 2_000_000_000. -/
def wdt_demo_fed : WdtState :=
  { wdt_demo_greeted with
      was_greeted := false,
      next_expiration_time := 2000000000,
      timer_deadline := 2000000000 }

/-- Scenario state after the timer expiry at t = 2_000_000_000: the
deadline advanced to 3_000_000_000. -/
def wdt_demo_expired : WdtState :=
  { wdt_demo_fed with
      next_expiration_time := 3000000000,
      timer_deadline := 3000000000 }

lemma U32_pos : 0 < U32 := by decide

lemma and_one_shiftLeft (x n : Nat) :
    x &&& (1 <<< n) = if x.testBit n then 2 ^ n else 0 := by
  apply Nat.eq_of_testBit_eq
  intro j
  cases hb : x.testBit n <;>
    rcases eq_or_ne n j with rfl | hj <;>
      first
      | simp [Nat.testBit_and, Nat.one_shiftLeft, Nat.testBit_two_pow, hb, hj]
      | simp [Nat.testBit_and, Nat.one_shiftLeft, Nat.testBit_two_pow, hb]

lemma ipt_cond (power n : Nat) :
    (power &&& (1 <<< n) ≠ 0) ↔ power.testBit n = true := by
  rw [and_one_shiftLeft]
  cases hb : power.testBit n <;> simp [(Nat.two_pow_pos n).ne']

lemma ipt_loop_eq (base power : Nat) :
    ∀ (n out : Nat), out < U32 →
      ipt_loop base power out n = out ^ 2 ^ n * base ^ (power % 2 ^ n) % U32 := by
  intro n
  induction n with
  | zero =>
      intro out h
      simp [ipt_loop, Nat.mod_one, pow_zero, pow_one, Nat.mod_eq_of_lt h]
  | succ n ih =>
      intro out h
      rw [ipt_loop]
      simp only [ipt_cond]
      cases hb : power.testBit n with
      | true =>
          have hbit : power / 2 ^ n % 2 = 1 := by
            simpa [Nat.testBit_to_div_mod] using hb
          have hmod : power % 2 ^ (n + 1) = power % 2 ^ n + 2 ^ n := by
            rw [Nat.mod_pow_succ, hbit, mul_one, Nat.add_comm]
          rw [if_pos rfl]
          rw [ih _ (Nat.mod_lt _ U32_pos), Nat.mod_mul_mod]
          have hme : (out * out * base % U32) ^ 2 ^ n * base ^ (power % 2 ^ n)
              ≡ (out * out * base) ^ 2 ^ n * base ^ (power % 2 ^ n) [MOD U32] :=
            ((Nat.mod_modEq _ _).pow _).mul_right _
          rw [hme]
          congr 1
          rw [hmod]
          ring
      | false =>
          have hbit : power / 2 ^ n % 2 = 0 := by
            have h2 := Nat.mod_two_eq_zero_or_one (power / 2 ^ n)
            rcases h2 with h0 | h1
            · exact h0
            · simp [Nat.testBit_to_div_mod, h1] at hb
          have hmod : power % 2 ^ (n + 1) = power % 2 ^ n := by
            rw [Nat.mod_pow_succ, hbit, mul_zero, Nat.add_zero]
          rw [if_neg Bool.false_ne_true]
          rw [ih _ (Nat.mod_lt _ U32_pos)]
          have hme : (out * out % U32) ^ 2 ^ n * base ^ (power % 2 ^ n)
              ≡ (out * out) ^ 2 ^ n * base ^ (power % 2 ^ n) [MOD U32] :=
            ((Nat.mod_modEq _ _).pow _).mul_right _
          rw [hme]
          congr 1
          rw [hmod]
          ring

lemma integer_power_truncated_eq (base power : Nat) (h : power < 2 ^ 16) :
    integer_power_truncated base power = base ^ power % U32 := by
  rw [integer_power_truncated, ipt_loop_eq base power 16 1 (by decide), one_pow, one_mul,
    Nat.mod_eq_of_lt h]

lemma foldl_xor_eq (f : Nat → Nat) (l : List Nat) :
    ∀ a : Nat, List.foldl (fun r i => r ^^^ f i) a l
      = a ^^^ List.foldl (fun r i => r ^^^ f i) 0 l := by
  induction l with
  | nil => intro a; simp
  | cons i l ih =>
      intro a
      simp only [List.foldl_cons]
      rw [ih (a ^^^ f i), ih (0 ^^^ f i), Nat.zero_xor, Nat.xor_assoc]

lemma food_from_recipe_eq_xor (x : Nat) :
    wdt_strict_food_from_recipe x =
      integer_power_truncated ((x >>> 8) ||| 1) (x &&& 0xFFFF) ^^^ bit_reversal_32 x := by
  rw [wdt_strict_food_from_recipe, bit_reversal_32]
  exact foldl_xor_eq _ _ _

lemma shift_term_eq (x i : Nat) :
    ((x >>> i) &&& 1) <<< (31 - i) = (if x.testBit i then 1 else 0) * 2 ^ (31 - i) := by
  rw [Nat.shiftLeft_eq, Nat.and_one_is_mod, Nat.shiftRight_eq_div_pow]
  congr 1
  rcases Nat.mod_two_eq_zero_or_one (x / 2 ^ i) with h | h <;>
    simp [Nat.testBit_to_div_mod, h]

lemma ite_mul_two_pow_testBit (b : Bool) (k j : Nat) :
    ((if b = true then 1 else 0) * 2 ^ k).testBit j = (b && decide (k = j)) := by
  cases b <;> simp [Nat.testBit_two_pow]

lemma bit_reversal_32_testBit (x j : Nat) (hj : j < 32) :
    (bit_reversal_32 x).testBit j = x.testBit (31 - j) := by
  rw [bit_reversal_32]
  simp only [List.range_succ, List.range_zero, List.foldl_append, List.foldl_cons,
    List.foldl_nil, shift_term_eq]
  simp only [Nat.zero_xor, Nat.testBit_xor, ite_mul_two_pow_testBit]
  interval_cases j <;> simp

/-- Claim C3: the challenge transform is the pure function sending a
32-bit input to the wrapping square-and-multiply power
`((input >> 8) | 1) ^ (input & 0xFFFF) mod 2 ^ 32`, XORed with the
bit-reversal of the input (bit `i` of the input is bit `31 - i` of the
mask).  Determinism and absence of hidden state hold by construction:
the embedding is a pure function of its argument. -/
theorem wdt_strict_transform_characterization (x : Nat) :
    wdt_strict_food_from_recipe x =
      ((x >>> 8) ||| 1) ^ (x % 2 ^ 16) % U32 ^^^ bit_reversal_32 x
    ∧ ∀ j, j < 32 → (bit_reversal_32 x).testBit j = x.testBit (31 - j) := by
  constructor
  · rw [food_from_recipe_eq_xor]
    congr 1
    have h16 : x &&& 0xFFFF = x % 2 ^ 16 := by
      have h : (0xFFFF : Nat) = 2 ^ 16 - 1 := by norm_num
      rw [h, Nat.and_pow_two_sub_one_eq_mod]
    rw [h16, integer_power_truncated_eq _ _ (Nat.mod_lt _ (by norm_num))]
  · exact fun j hj => bit_reversal_32_testBit x j hj

/-- Witness for C3 at the concrete input 0xDEADBEEF. -/
theorem wdt_strict_transform_characterization_witness :
    wdt_strict_food_from_recipe 0xDEADBEEF =
      ((0xDEADBEEF >>> 8) ||| 1) ^ (0xDEADBEEF % 2 ^ 16) % U32 ^^^ bit_reversal_32 0xDEADBEEF
    ∧ (bit_reversal_32 0xDEADBEEF).testBit 0 = (0xDEADBEEF : Nat).testBit 31 :=
  ⟨(wdt_strict_transform_characterization 0xDEADBEEF).1,
   (wdt_strict_transform_characterization 0xDEADBEEF).2 0 (by decide)⟩

lemma wdt_strict_defer_next_reset_some (s : WdtState) (now : Nat)
    (hpre : now ≤ s.next_expiration_time) :
    wdt_strict_defer_next_reset s now =
      some (if s.next_expiration_time ≤ (now + s.feeding_period_ns) % U64 then
              { s with
                  next_expiration_time := (s.next_expiration_time + s.feeding_period_ns) % U64,
                  timer_deadline := (s.next_expiration_time + s.feeding_period_ns) % U64 }
            else s) := by
  rw [wdt_strict_defer_next_reset, if_pos hpre, apply_ite some]

lemma wdt_strict_immediate_reset_some (s : WdtState) (now : Nat)
    (hpre : now ≤ s.next_expiration_time) :
    ∃ s1, wdt_strict_defer_next_reset s now = some s1 ∧
      wdt_strict_immediate_reset s now = some ({ s1 with was_greeted := false }, true) := by
  refine ⟨_, wdt_strict_defer_next_reset_some s now hpre, ?_⟩
  rw [wdt_strict_immediate_reset, wdt_strict_defer_next_reset_some s now hpre]
  rfl

/-- Claim C6: under the assertion precondition `now <= next_expiration_time`
and absence of 64-bit overflow, `DeferDeadline` adds exactly one
`feeding_period_ns` to the deadline (and re-arms the timer at the same
value) exactly when `next_expiration_time <= now + feeding_period_ns`,
and otherwise leaves the state unchanged. -/
theorem wdt_strict_defer_next_reset_correct (s : WdtState) (now : Nat)
    (hpre : now ≤ s.next_expiration_time)
    (hov : s.next_expiration_time + s.feeding_period_ns < U64) :
    wdt_strict_defer_next_reset s now =
      some (if s.next_expiration_time ≤ now + s.feeding_period_ns then
              { s with
                  next_expiration_time := s.next_expiration_time + s.feeding_period_ns,
                  timer_deadline := s.next_expiration_time + s.feeding_period_ns }
            else s) := by
  have h1 : now + s.feeding_period_ns < U64 :=
    lt_of_le_of_lt (Nat.add_le_add_right hpre _) hov
  rw [wdt_strict_defer_next_reset_some s now hpre, Nat.mod_eq_of_lt h1,
    Nat.mod_eq_of_lt hov]

/-- Witness for C6: deferring from the post-greet scenario state at
t = 200_000_001 pushes the deadline from 1s to 2s. -/
theorem wdt_strict_defer_next_reset_correct_witness :
    wdt_strict_defer_next_reset wdt_demo_greeted 200000001 =
      some (if wdt_demo_greeted.next_expiration_time
              ≤ 200000001 + wdt_demo_greeted.feeding_period_ns then
              { wdt_demo_greeted with
                  next_expiration_time :=
                    wdt_demo_greeted.next_expiration_time + wdt_demo_greeted.feeding_period_ns,
                  timer_deadline :=
                    wdt_demo_greeted.next_expiration_time + wdt_demo_greeted.feeding_period_ns }
            else wdt_demo_greeted) :=
  wdt_strict_defer_next_reset_correct wdt_demo_greeted 200000001 (by decide) (by decide)

/-- Claim C5: when the timer fires with `now >= next_expiration_time`
(and the advanced deadline is still in the future, so the second fatal
assertion passes, with no 64-bit overflow), `OnTimerExpired` advances the
deadline by exactly one period, re-arms the timer there, clears
`was_greeted`, and invokes the reset action iff `disable_auto` is false. -/
theorem wdt_strict_timer_expired_correct (s : WdtState) (now : Nat)
    (hpre : s.next_expiration_time ≤ now)
    (hfuture : now < s.next_expiration_time + s.feeding_period_ns)
    (hov : s.next_expiration_time + s.feeding_period_ns < U64) :
    wdt_strict_timer_expired s now =
      some ({ s with
                next_expiration_time := s.next_expiration_time + s.feeding_period_ns,
                timer_deadline := s.next_expiration_time + s.feeding_period_ns,
                was_greeted := false },
            !s.disable_auto) := by
  simp only [wdt_strict_timer_expired, Nat.mod_eq_of_lt hov]
  rw [if_pos hpre, if_pos hfuture]

/-- Witness for C5: the timer firing exactly at the 2s deadline of the
scenario state advances the deadline to 3s and resets. -/
theorem wdt_strict_timer_expired_correct_witness :
    wdt_strict_timer_expired wdt_demo_fed 2000000000 =
      some ({ wdt_demo_fed with
                next_expiration_time :=
                  wdt_demo_fed.next_expiration_time + wdt_demo_fed.feeding_period_ns,
                timer_deadline :=
                  wdt_demo_fed.next_expiration_time + wdt_demo_fed.feeding_period_ns,
                was_greeted := false },
            !wdt_demo_fed.disable_auto) :=
  wdt_strict_timer_expired_correct wdt_demo_fed 2000000000 (by decide) (by decide) (by decide)

/-- Claim C1: under the assertion precondition `next_expiration_time >= now`
and absence of 64-bit overflow, Greet runs the violation handler and
returns 0 when called too early or when already greeted, and otherwise
returns `recipe = transform(~(u32)now)`, sets `was_greeted`, and sets
`next_food_expected = transform(recipe)` without invoking the reset
action. -/
theorem wdt_strict_greet_correct (s : WdtState) (now : Nat)
    (hpre : now ≤ s.next_expiration_time)
    (hov : now + s.early_feed_limit_ns < U64) :
    wdt_strict_greet s now =
      if now + s.early_feed_limit_ns < s.next_expiration_time ∨ s.was_greeted = true then
        (wdt_strict_immediate_reset s now).map fun p => (0, p.1, p.2)
      else
        some (wdt_strict_food_from_recipe (u32_complement now),
              { s with
                  was_greeted := true,
                  next_food_expected :=
                    wdt_strict_food_from_recipe
                      (wdt_strict_food_from_recipe (u32_complement now)) },
              false) := by
  simp only [wdt_strict_greet, Nat.mod_eq_of_lt hov]
  rw [if_neg (Nat.not_lt.mpr hpre)]

/-- Witness for C1 at the scenario device and t = 200_000_000. -/
theorem wdt_strict_greet_correct_witness :
    wdt_strict_greet wdt_demo_init 200000000 =
      if 200000000 + wdt_demo_init.early_feed_limit_ns < wdt_demo_init.next_expiration_time
          ∨ wdt_demo_init.was_greeted = true then
        (wdt_strict_immediate_reset wdt_demo_init 200000000).map fun p => (0, p.1, p.2)
      else
        some (wdt_strict_food_from_recipe (u32_complement 200000000),
              { wdt_demo_init with
                  was_greeted := true,
                  next_food_expected :=
                    wdt_strict_food_from_recipe
                      (wdt_strict_food_from_recipe (u32_complement 200000000)) },
              false) :=
  wdt_strict_greet_correct wdt_demo_init 200000000 (by decide) (by decide)

/-- Claim C2: under the assertion precondition and absence of 64-bit
overflow, Feed runs the violation handler exactly when called too early,
or before a greet, or with a value different from `next_food_expected`;
in the one remaining case the feed is accepted: `DeferDeadline` is
applied, `was_greeted` is cleared, and the reset action is not invoked. -/
theorem wdt_strict_feed_correct (s : WdtState) (now value : Nat)
    (hpre : now ≤ s.next_expiration_time)
    (hov : now + s.early_feed_limit_ns < U64) :
    wdt_strict_feed s now value =
      if now + s.early_feed_limit_ns < s.next_expiration_time ∨ s.was_greeted = false
          ∨ value ≠ s.next_food_expected then
        wdt_strict_immediate_reset s now
      else
        (wdt_strict_defer_next_reset s now).map
          fun s1 => ({ s1 with was_greeted := false }, false) := by
  simp only [wdt_strict_feed, Nat.mod_eq_of_lt hov]
  rw [if_neg (Nat.not_lt.mpr hpre)]

/-- Witness for C2: feeding the expected food at t = 200_000_001 in the
post-greet scenario state. -/
theorem wdt_strict_feed_correct_witness :
    wdt_strict_feed wdt_demo_greeted 200000001 wdt_demo_food =
      if 200000001 + wdt_demo_greeted.early_feed_limit_ns
            < wdt_demo_greeted.next_expiration_time
          ∨ wdt_demo_greeted.was_greeted = false
          ∨ wdt_demo_food ≠ wdt_demo_greeted.next_food_expected then
        wdt_strict_immediate_reset wdt_demo_greeted 200000001
      else
        (wdt_strict_defer_next_reset wdt_demo_greeted 200000001).map
          fun s1 => ({ s1 with was_greeted := false }, false) :=
  wdt_strict_feed_correct wdt_demo_greeted 200000001 wdt_demo_food (by decide) (by decide)

/-- Claim C4: every protocol violation path invokes the reset action
unconditionally — the reset flag is `true` for any `disable_auto` — and
the violation handler applies `DeferDeadline` and clears `was_greeted`
before resetting.  The conjuncts cover the handler itself, the greet and
feed violation branches, a read of FEED, and writes to the three
read-only registers. -/
theorem wdt_strict_violation_always_resets (s : WdtState) (now value : Nat)
    (hpre : now ≤ s.next_expiration_time)
    (hov : now + s.early_feed_limit_ns < U64) :
    (∃ s1, wdt_strict_defer_next_reset s now = some s1 ∧
        wdt_strict_immediate_reset s now = some ({ s1 with was_greeted := false }, true))
    ∧ ((now + s.early_feed_limit_ns < s.next_expiration_time ∨ s.was_greeted = true) →
        ∃ s2, wdt_strict_greet s now = some (0, s2, true))
    ∧ ((now + s.early_feed_limit_ns < s.next_expiration_time ∨ s.was_greeted = false
          ∨ value ≠ s.next_food_expected) →
        ∃ s2, wdt_strict_feed s now value = some (s2, true))
    ∧ (∃ s2, wdt_strict_read s now WDT_STRICT_REG_FEED 4 = some (0, s2, true))
    ∧ (∃ s2, wdt_strict_write s now WDT_STRICT_REG_GREET value 4 = some (s2, true))
    ∧ (∃ s2, wdt_strict_write s now WDT_STRICT_REG_DEADLINE value 4 = some (s2, true))
    ∧ (∃ s2, wdt_strict_write s now WDT_STRICT_REG_EARLY_OFFSET value 4 = some (s2, true)) := by
  obtain ⟨s1, hdefer, hir⟩ := wdt_strict_immediate_reset_some s now hpre
  refine ⟨⟨s1, hdefer, hir⟩, ?_, ?_, ?_, ?_, ?_, ?_⟩
  · intro hcond
    refine ⟨{ s1 with was_greeted := false }, ?_⟩
    rw [wdt_strict_greet, if_neg (Nat.not_lt.mpr hpre),
      if_pos (by rwa [Nat.mod_eq_of_lt hov]), hir]
    rfl
  · intro hcond
    refine ⟨{ s1 with was_greeted := false }, ?_⟩
    rw [wdt_strict_feed, if_neg (Nat.not_lt.mpr hpre),
      if_pos (by rwa [Nat.mod_eq_of_lt hov]), hir]
  · refine ⟨{ s1 with was_greeted := false }, ?_⟩
    rw [wdt_strict_read, if_neg (by decide), if_neg (by decide), if_pos rfl, hir]
    rfl
  · refine ⟨{ s1 with was_greeted := false }, ?_⟩
    rw [wdt_strict_write, if_neg (by decide), if_pos (Or.inl rfl), hir]
  · refine ⟨{ s1 with was_greeted := false }, ?_⟩
    rw [wdt_strict_write, if_neg (by decide), if_pos (Or.inr (Or.inl rfl)), hir]
  · refine ⟨{ s1 with was_greeted := false }, ?_⟩
    rw [wdt_strict_write, if_neg (by decide), if_pos (Or.inr (Or.inr rfl)), hir]

/-- Witness for C4 at the already-greeted scenario state, t = 200_000_000,
fed value 0 (wrong food), where the greet and feed violation conditions
really hold. -/
theorem wdt_strict_violation_always_resets_witness :
    (∃ s1, wdt_strict_defer_next_reset wdt_demo_greeted 200000000 = some s1 ∧
        wdt_strict_immediate_reset wdt_demo_greeted 200000000 =
          some ({ s1 with was_greeted := false }, true))
    ∧ ((200000000 + wdt_demo_greeted.early_feed_limit_ns
            < wdt_demo_greeted.next_expiration_time
          ∨ wdt_demo_greeted.was_greeted = true) →
        ∃ s2, wdt_strict_greet wdt_demo_greeted 200000000 = some (0, s2, true))
    ∧ ((200000000 + wdt_demo_greeted.early_feed_limit_ns
            < wdt_demo_greeted.next_expiration_time
          ∨ wdt_demo_greeted.was_greeted = false
          ∨ (0 : Nat) ≠ wdt_demo_greeted.next_food_expected) →
        ∃ s2, wdt_strict_feed wdt_demo_greeted 200000000 0 = some (s2, true))
    ∧ (∃ s2, wdt_strict_read wdt_demo_greeted 200000000 WDT_STRICT_REG_FEED 4
          = some (0, s2, true))
    ∧ (∃ s2, wdt_strict_write wdt_demo_greeted 200000000 WDT_STRICT_REG_GREET 0 4
          = some (s2, true))
    ∧ (∃ s2, wdt_strict_write wdt_demo_greeted 200000000 WDT_STRICT_REG_DEADLINE 0 4
          = some (s2, true))
    ∧ (∃ s2, wdt_strict_write wdt_demo_greeted 200000000 WDT_STRICT_REG_EARLY_OFFSET 0 4
          = some (s2, true)) :=
  wdt_strict_violation_always_resets wdt_demo_greeted 200000000 0 (by decide) (by decide)

/-- Claim C10: a successful greet changes only `was_greeted` and
`next_food_expected`; the deadline, the armed timer, and the three
configuration fields are untouched. -/
theorem wdt_strict_greet_frame (s : WdtState) (now : Nat)
    (hpre : now ≤ s.next_expiration_time)
    (hwin : s.next_expiration_time ≤ (now + s.early_feed_limit_ns) % U64)
    (hg : s.was_greeted = false) :
    ∃ r s', wdt_strict_greet s now = some (r, s', false) ∧
      s'.next_expiration_time = s.next_expiration_time ∧
      s'.timer_deadline = s.timer_deadline ∧
      s'.feeding_period_ns = s.feeding_period_ns ∧
      s'.early_feed_limit_ns = s.early_feed_limit_ns ∧
      s'.disable_auto = s.disable_auto ∧
      s'.was_greeted = true := by
  refine ⟨wdt_strict_food_from_recipe (u32_complement now),
    { s with
        was_greeted := true,
        next_food_expected :=
          wdt_strict_food_from_recipe
            (wdt_strict_food_from_recipe (u32_complement now)) },
    ?_, rfl, rfl, rfl, rfl, rfl, rfl⟩
  rw [wdt_strict_greet, if_neg (Nat.not_lt.mpr hpre),
    if_neg (by push_neg; exact ⟨hwin, by simp [hg]⟩)]

/-- Witness for C10: the scenario greet at t = 200_000_000. -/
theorem wdt_strict_greet_frame_witness :
    ∃ r s', wdt_strict_greet wdt_demo_init 200000000 = some (r, s', false) ∧
      s'.next_expiration_time = wdt_demo_init.next_expiration_time ∧
      s'.timer_deadline = wdt_demo_init.timer_deadline ∧
      s'.feeding_period_ns = wdt_demo_init.feeding_period_ns ∧
      s'.early_feed_limit_ns = wdt_demo_init.early_feed_limit_ns ∧
      s'.disable_auto = wdt_demo_init.disable_auto ∧
      s'.was_greeted = true :=
  wdt_strict_greet_frame wdt_demo_init 200000000 (by decide) (by decide) (by decide)

lemma wdt_strict_defer_deadline_cases (s : WdtState) (now : Nat) (s1 : WdtState)
    (h : wdt_strict_defer_next_reset s now = some s1) :
    s1.feeding_period_ns = s.feeding_period_ns ∧
    (s1.next_expiration_time = s.next_expiration_time ∨
     s1.next_expiration_time = (s.next_expiration_time + s.feeding_period_ns) % U64) := by
  rw [wdt_strict_defer_next_reset] at h
  by_cases h1 : now ≤ s.next_expiration_time
  · rw [if_pos h1] at h
    by_cases h2 : s.next_expiration_time ≤ (now + s.feeding_period_ns) % U64
    · rw [if_pos h2] at h
      injection h with h3
      subst h3
      exact ⟨rfl, Or.inr rfl⟩
    · rw [if_neg h2] at h
      injection h with h3
      subst h3
      exact ⟨rfl, Or.inl rfl⟩
  · rw [if_neg h1] at h
    exact absurd h (by simp)

lemma wdt_strict_immediate_deadline_cases (s : WdtState) (now : Nat) (s1 : WdtState) (b : Bool)
    (h : wdt_strict_immediate_reset s now = some (s1, b)) :
    s1.feeding_period_ns = s.feeding_period_ns ∧
    (s1.next_expiration_time = s.next_expiration_time ∨
     s1.next_expiration_time = (s.next_expiration_time + s.feeding_period_ns) % U64) := by
  rw [wdt_strict_immediate_reset] at h
  obtain ⟨s2, hdef, heq⟩ := Option.map_eq_some'.mp h
  obtain ⟨hper, hdl⟩ := wdt_strict_defer_deadline_cases s now s2 hdef
  injection heq with he1 he2
  subst he1
  exact ⟨hper, hdl⟩

lemma wdt_strict_greet_deadline_cases (s : WdtState) (now r : Nat) (s1 : WdtState) (b : Bool)
    (h : wdt_strict_greet s now = some (r, s1, b)) :
    s1.feeding_period_ns = s.feeding_period_ns ∧
    (s1.next_expiration_time = s.next_expiration_time ∨
     s1.next_expiration_time = (s.next_expiration_time + s.feeding_period_ns) % U64) := by
  rw [wdt_strict_greet] at h
  split at h
  · exact absurd h (by simp)
  · split at h
    · obtain ⟨p1, hir, heq⟩ := Option.map_eq_some'.mp h
      injection heq with he1 he2
      injection he2 with he2 he3
      subst he2
      exact wdt_strict_immediate_deadline_cases s now p1.1 p1.2 (by rw [hir])
    · injection h with he
      injection he with he1 he2
      injection he2 with he2 he3
      subst he2
      exact ⟨rfl, Or.inl rfl⟩

lemma wdt_strict_feed_deadline_cases (s : WdtState) (now v : Nat) (s1 : WdtState) (b : Bool)
    (h : wdt_strict_feed s now v = some (s1, b)) :
    s1.feeding_period_ns = s.feeding_period_ns ∧
    (s1.next_expiration_time = s.next_expiration_time ∨
     s1.next_expiration_time = (s.next_expiration_time + s.feeding_period_ns) % U64) := by
  rw [wdt_strict_feed] at h
  split at h
  · exact absurd h (by simp)
  · split at h
    · exact wdt_strict_immediate_deadline_cases s now s1 b h
    · obtain ⟨s2, hdef, heq⟩ := Option.map_eq_some'.mp h
      injection heq with he1 he2
      subst he1
      exact wdt_strict_defer_deadline_cases s now s2 hdef

lemma wdt_strict_timer_deadline_cases (s : WdtState) (now : Nat) (s1 : WdtState) (b : Bool)
    (h : wdt_strict_timer_expired s now = some (s1, b)) :
    s1.feeding_period_ns = s.feeding_period_ns ∧
    (s1.next_expiration_time = s.next_expiration_time ∨
     s1.next_expiration_time = (s.next_expiration_time + s.feeding_period_ns) % U64) := by
  simp only [wdt_strict_timer_expired] at h
  split at h
  · split at h
    · injection h with he
      injection he with he1 he2
      subst he1
      exact ⟨rfl, Or.inr rfl⟩
    · exact absurd h (by simp)
  · exact absurd h (by simp)

lemma wdt_strict_read_deadline_cases (s : WdtState) (now addr size r : Nat) (s1 : WdtState) (b : Bool)
    (h : wdt_strict_read s now addr size = some (r, s1, b)) :
    s1.feeding_period_ns = s.feeding_period_ns ∧
    (s1.next_expiration_time = s.next_expiration_time ∨
     s1.next_expiration_time = (s.next_expiration_time + s.feeding_period_ns) % U64) := by
  rw [wdt_strict_read] at h
  split at h
  · exact absurd h (by simp)
  · split at h
    · exact wdt_strict_greet_deadline_cases s now r s1 b h
    · split at h
      · obtain ⟨p1, hir, heq⟩ := Option.map_eq_some'.mp h
        injection heq with he1 he2
        injection he2 with he2 he3
        subst he2
        exact wdt_strict_immediate_deadline_cases s now p1.1 p1.2 (by rw [hir])
      · split at h
        · injection h with he
          injection he with he1 he2
          injection he2 with he2 he3
          subst he2
          exact ⟨rfl, Or.inl rfl⟩
        · split at h
          · injection h with he
            injection he with he1 he2
            injection he2 with he2 he3
            subst he2
            exact ⟨rfl, Or.inl rfl⟩
          · exact absurd h (by simp)

lemma wdt_strict_write_deadline_cases (s : WdtState) (now addr v size : Nat) (s1 : WdtState) (b : Bool)
    (h : wdt_strict_write s now addr v size = some (s1, b)) :
    s1.feeding_period_ns = s.feeding_period_ns ∧
    (s1.next_expiration_time = s.next_expiration_time ∨
     s1.next_expiration_time = (s.next_expiration_time + s.feeding_period_ns) % U64) := by
  rw [wdt_strict_write] at h
  split at h
  · exact absurd h (by simp)
  · split at h
    · exact wdt_strict_immediate_deadline_cases s now s1 b h
    · split at h
      · exact wdt_strict_feed_deadline_cases s now (v % U32) s1 b h
      · exact absurd h (by simp)

lemma wdt_strict_step_deadline_cases (s : WdtState) (op : WdtOp) (s1 : WdtState)
    (h : wdt_strict_step s op = some s1) :
    s1.feeding_period_ns = s.feeding_period_ns ∧
    (s1.next_expiration_time = s.next_expiration_time ∨
     s1.next_expiration_time = (s.next_expiration_time + s.feeding_period_ns) % U64) := by
  cases op with
  | greet now =>
      obtain ⟨p1, hg, heq⟩ := Option.map_eq_some'.mp h
      subst heq
      exact wdt_strict_greet_deadline_cases s now p1.1 p1.2.1 p1.2.2 (by rw [hg])
  | feed now v =>
      obtain ⟨p1, hf, heq⟩ := Option.map_eq_some'.mp h
      subst heq
      exact wdt_strict_feed_deadline_cases s now v p1.1 p1.2 (by rw [hf])
  | timerExpired now =>
      obtain ⟨p1, ht, heq⟩ := Option.map_eq_some'.mp h
      subst heq
      exact wdt_strict_timer_deadline_cases s now p1.1 p1.2 (by rw [ht])
  | readReg now addr size =>
      obtain ⟨p1, hr, heq⟩ := Option.map_eq_some'.mp h
      subst heq
      exact wdt_strict_read_deadline_cases s now addr size p1.1 p1.2.1 p1.2.2 (by rw [hr])
  | writeReg now addr v size =>
      obtain ⟨p1, hw, heq⟩ := Option.map_eq_some'.mp h
      subst heq
      exact wdt_strict_write_deadline_cases s now addr v size p1.1 p1.2 (by rw [hw])

lemma wdt_strict_run_deadline (p : Nat) :
    ∀ (l : List WdtOp) (s s' : WdtState),
      s.feeding_period_ns = p →
      wdt_strict_run s l = some s' →
      s.next_expiration_time + l.length * p < U64 →
      s'.feeding_period_ns = p ∧
      ∃ k, k ≤ l.length ∧ s'.next_expiration_time = s.next_expiration_time + k * p := by
  intro l
  induction l with
  | nil =>
      intro s s' hp h hov
      injection h with h1
      subst h1
      exact ⟨hp, 0, Nat.le_refl 0, by simp⟩
  | cons op l ih =>
      intro s s' hp h hov
      rw [wdt_strict_run] at h
      obtain ⟨s1, hstep, hrun⟩ := Option.bind_eq_some.mp h
      obtain ⟨hp1, hdl⟩ := wdt_strict_step_deadline_cases s op s1 hstep
      have hlen : (op :: l).length * p = l.length * p + p := by
        simp [List.length_cons, Nat.succ_mul]
      rw [hlen] at hov
      have hplt : s.next_expiration_time + p < U64 := by omega
      have hdl1 : s1.next_expiration_time = s.next_expiration_time ∨
          s1.next_expiration_time = s.next_expiration_time + p := by
        rcases hdl with h0 | h1
        · exact Or.inl h0
        · right
          rw [h1, hp, Nat.mod_eq_of_lt hplt]
      have hov1 : s1.next_expiration_time + l.length * p < U64 := by
        rcases hdl1 with h0 | h1 <;> omega
      obtain ⟨hp', k, hk, hdl'⟩ := ih s1 s' (hp1.trans hp) hrun hov1
      refine ⟨hp', ?_⟩
      rcases hdl1 with h0 | h1
      · exact ⟨k, by simp [List.length_cons]; omega, by rw [hdl', h0]⟩
      · refine ⟨k + 1, by simp [List.length_cons]; omega, ?_⟩
        rw [hdl', h1, Nat.succ_mul]
        ring

/-- Claim C7: over every operation sequence from a realized device
(greets, feeds, timer expiries, and register accesses including all
violation paths), absent 64-bit overflow the deadline is non-decreasing
and after every operation equals the initial `now + feeding_period_ns`
plus a non-negative multiple of `feeding_period_ns`.  The split into
`l1 ++ l2` exposes two arbitrary reachable points of one sequence. -/
theorem wdt_strict_deadline_monotone (dis : Bool) (p e t0 : Nat)
    (l1 l2 : List WdtOp) (s1 s2 : WdtState)
    (hov : t0 + (l1.length + l2.length + 1) * p < U64)
    (h1 : wdt_strict_run (wdt_strict_realize dis p e t0) l1 = some s1)
    (h2 : wdt_strict_run s1 l2 = some s2) :
    s1.next_expiration_time ≤ s2.next_expiration_time ∧
    (∃ k, s1.next_expiration_time = (t0 + p) + k * p) ∧
    (∃ k, s2.next_expiration_time = (t0 + p) + k * p) := by
  have hexp : (l1.length + l2.length + 1) * p = l1.length * p + l2.length * p + p := by
    ring
  rw [hexp] at hov
  have ht0p : t0 + p < U64 := by omega
  have hini : (wdt_strict_realize dis p e t0).next_expiration_time = t0 + p := by
    simp [wdt_strict_realize, Nat.mod_eq_of_lt ht0p]
  have hinip : (wdt_strict_realize dis p e t0).feeding_period_ns = p := rfl
  have hb1 : (wdt_strict_realize dis p e t0).next_expiration_time + l1.length * p < U64 := by
    rw [hini]; omega
  obtain ⟨hp1, k1, hk1, hdl1⟩ := wdt_strict_run_deadline p l1 _ s1 hinip h1 hb1
  rw [hini] at hdl1
  have hk1p : k1 * p ≤ l1.length * p := Nat.mul_le_mul_right p hk1
  have hb2 : s1.next_expiration_time + l2.length * p < U64 := by
    rw [hdl1]; omega
  obtain ⟨hp2, k2, hk2, hdl2⟩ := wdt_strict_run_deadline p l2 s1 s2 hp1 h2 hb2
  refine ⟨?_, ⟨k1, hdl1⟩, ⟨k1 + k2, ?_⟩⟩
  · rw [hdl2]
    exact Nat.le_add_right _ _
  · rw [hdl2, hdl1]
    ring

set_option maxRecDepth 4096 in
/-- Witness for C7: from the scenario device, a greet at t = 200_000_000
followed by the timer expiry at the 1s deadline reaches the post-greet
state and then the deferred state with deadline 2s. -/
theorem wdt_strict_deadline_monotone_witness :
    wdt_demo_greeted.next_expiration_time ≤ wdt_demo_fed.next_expiration_time ∧
    (∃ k, wdt_demo_greeted.next_expiration_time = (0 + 1000000000) + k * 1000000000) ∧
    (∃ k, wdt_demo_fed.next_expiration_time = (0 + 1000000000) + k * 1000000000) :=
  wdt_strict_deadline_monotone false 1000000000 1000000000 0
    [WdtOp.greet 200000000] [WdtOp.timerExpired 1000000000]
    wdt_demo_greeted wdt_demo_fed (by decide) (by decide) (by decide)

/-- Counterexample for C8: a 2-byte read of GREET on the freshly realized
scenario device fails the `assert(size == 4)` and aborts (modelled
`none`); it does not invoke the violation handler, whose outcome at the
very same state would be a `some` result with the reset flag `true`. -/
theorem wdt_strict_access_width_no_reset :
    wdt_strict_read wdt_demo_init 0 WDT_STRICT_REG_GREET 2 = none ∧
    (wdt_strict_immediate_reset wdt_demo_init 0).map Prod.snd = some true := by
  decide

/-- Amended C8: a register access whose width is not exactly 4 bytes hits
the fatal `assert(size == 4)` in both the read and the write callback
(modelled `none`) instead of being handled as a protocol violation; the
MMIO `.impl` constraints pin the access size delivered by the memory
core to exactly 4 bytes. -/
theorem wdt_strict_access_width_assert (s : WdtState) (now addr value size : Nat)
    (h : size ≠ 4) :
    wdt_strict_read s now addr size = none ∧
    wdt_strict_write s now addr value size = none ∧
    wdt_strict_ops_impl.min_access_size = 4 ∧
    wdt_strict_ops_impl.max_access_size = 4 := by
  refine ⟨?_, ?_, rfl, rfl⟩
  · rw [wdt_strict_read, if_pos h]
  · rw [wdt_strict_write, if_pos h]

/-- Witness for the amended C8 at width 2. -/
theorem wdt_strict_access_width_assert_witness :
    (2 : Nat) ≠ 4 ∧
    (wdt_strict_read wdt_demo_init 0 WDT_STRICT_REG_GREET 2 = none ∧
     wdt_strict_write wdt_demo_init 0 WDT_STRICT_REG_GREET 5 2 = none ∧
     wdt_strict_ops_impl.min_access_size = 4 ∧
     wdt_strict_ops_impl.max_access_size = 4) :=
  ⟨by decide, wdt_strict_access_width_assert wdt_demo_init 0 WDT_STRICT_REG_GREET 5 2 (by decide)⟩

/-- Counterexample for C9: the scenario's first two steps really reach
the state with deadline 2_000_000_000, but the greet at t = 2_100_000_000
does not trigger a violation and reset: issued directly it breaches the
fatal precondition assertion (`none`), and issued after the timer expiry
at t = 2_000_000_000 it succeeds with the reset flag `false`. -/
theorem wdt_strict_scenario_greet_late_fails :
    wdt_strict_greet wdt_demo_init 200000000 = some (wdt_demo_recipe, wdt_demo_greeted, false) ∧
    wdt_strict_feed wdt_demo_greeted 200000001 wdt_demo_food = some (wdt_demo_fed, false) ∧
    wdt_demo_fed.next_expiration_time = 2000000000 ∧
    wdt_strict_greet wdt_demo_fed 2100000000 = none ∧
    (wdt_strict_greet wdt_demo_expired 2100000000).map (fun p => p.2.2) = some false := by
  decide

/-- Amended C9: in the concrete scenario the greet at t = 200_000_000
succeeds, feeding `transform(recipe)` back at t = 200_000_001 succeeds
and defers the deadline to 2_000_000_000; the timer then expires at
t = 2_000_000_000 (advancing the deadline to 3_000_000_000, clearing
`was_greeted`, and invoking the reset action since `disable_auto` is
false), after which a greet at t = 2_100_000_000 succeeds rather than
violating. -/
theorem wdt_strict_scenario_trace :
    wdt_strict_greet wdt_demo_init 200000000 = some (wdt_demo_recipe, wdt_demo_greeted, false) ∧
    wdt_strict_feed wdt_demo_greeted 200000001 wdt_demo_food = some (wdt_demo_fed, false) ∧
    wdt_demo_fed.next_expiration_time = 2000000000 ∧
    wdt_demo_fed.timer_deadline = 2000000000 ∧
    wdt_strict_timer_expired wdt_demo_fed 2000000000 = some (wdt_demo_expired, true) ∧
    wdt_strict_greet wdt_demo_expired 2100000000 =
      some (wdt_strict_food_from_recipe (u32_complement 2100000000),
            { wdt_demo_expired with
                was_greeted := true,
                next_food_expected :=
                  wdt_strict_food_from_recipe
                    (wdt_strict_food_from_recipe (u32_complement 2100000000)) },
            false) := by
  decide
